import Mathlib

/-!
Shallow embedding of the kraken-buy-bot repository (bot.py, config.py,
notifications.py, shared.py) and proofs about the claims of its
specification.  Money amounts, prices and timestamps are modelled as
rationals; the exchange gateway is modelled as an oracle supplying one
snapshot of balances and the order book per executor attempt.  Gateway
calls are modelled as always answering (the `except` retry path of the
executors, reached only on raised exceptions, is outside the model).
-/

namespace KrakenBuyBot

/-- TRADING_CONFIG from config.py (the fields the executors read). -/
structure TradingConfig where
  min_btc_amount : ℚ
  balance_percentage : ℚ
  order_timeout_minutes : ℕ
  max_retries : ℕ
  retry_delay_seconds : ℕ
deriving DecidableEq

/-- The default TRADING_CONFIG values from config.py:
min_btc_amount 0.00005, balance_percentage 20/100, order timeout 5,
max_retries 10, retry delay 5. -/
def defaultTradingConfig : TradingConfig :=
  ⟨5 / 100000, 20 / 100, 5, 10, 5⟩

/-- Funding currencies returned by get_available_balance in bot.py. -/
inductive Currency
  | EUR
  | USDC
deriving DecidableEq

/-- One gateway snapshot, as read by a single executor attempt:
the fetch_balance totals the attempt looks at, the fetch_order_book bid
levels, and (live mode) whether fetch_order later reports the placed
order as closed. -/
structure GatewaySnapshot where
  eurBalance : ℚ
  usdcFBalance : ℚ
  assetBalance : ℚ
  bids : List (ℚ × ℚ)
  orderFilled : Bool
deriving DecidableEq

/-- get_available_balance from bot.py: EUR if its total is at least 10,
else USDC (when allowed) if its total is at least 10, else nothing. -/
def get_available_balance (allow_usdc : Bool) (s : GatewaySnapshot) :
    Option (Currency × ℚ) :=
  if 10 ≤ s.eurBalance then some (Currency.EUR, s.eurBalance)
  else if allow_usdc = true ∧ 10 ≤ s.usdcFBalance then
    some (Currency.USDC, s.usdcFBalance)
  else none

/-- The outcome of the body of one iteration of an executor's retry
loop in bot.py (place_limit_order_btc and its per-asset copies). -/
inductive AttemptStep
  | abortInsufficientBalance
  | abortNoBids
  | abortBelowMin (qty : ℚ)
  | simFilled (qty price : ℚ)
  | simNotFilled
  | liveFilled (qty price : ℚ)
  | liveNotFilled
deriving DecidableEq

/-- One iteration of the place_limit_order_btc loop body (bot.py lines
130-228): fetch balances, pick the funding currency, compute the spend
amount, read the order book, size the order and either abort, simulate
(dry run) or place a live order.  In the dry-run branch the source reads
current_price from the SAME snapshot field as bid_price
(order_book bids, first level, first component, both times). -/
def btc_attempt (cfg : TradingConfig) (dryRun : Bool) (s : GatewaySnapshot) :
    AttemptStep :=
  match get_available_balance true s with
  | none => AttemptStep.abortInsufficientBalance
  | some (_, available_balance) =>
    match s.bids with
    | [] => AttemptStep.abortNoBids
    | b0 :: _ =>
      let bid_price := b0.1
      let amount_to_use := available_balance * cfg.balance_percentage
      let btc_amount := amount_to_use / bid_price
      if btc_amount < cfg.min_btc_amount then AttemptStep.abortBelowMin btc_amount
      else if dryRun then
        let current_price := b0.1
        if current_price ≤ bid_price then AttemptStep.simFilled btc_amount bid_price
        else AttemptStep.simNotFilled
      else if s.orderFilled then AttemptStep.liveFilled btc_amount bid_price
      else AttemptStep.liveNotFilled

/-- Terminal outcome of one executor run. -/
inductive Outcome
  | abortedInsufficientBalance
  | abortedNoBids
  | abortedBelowMin
  | success
  | failedMaxRetries
deriving DecidableEq

/-- Aggregate result of one executor run: terminal outcome, number of
loop iterations entered (record_order_attempt count), final retry_count,
number of create_limit_buy_order calls, number of exchange gateway calls
made, and whether save_state with monday_attempt_successful true ran. -/
structure RunResult where
  outcome : Outcome
  attemptsStarted : ℕ
  retriesConsumed : ℕ
  ordersPlaced : ℕ
  gatewayCalls : ℕ
  savedMondayTrue : Bool
deriving DecidableEq

/-- The while loop of place_limit_order_btc.  `fuel` is the number of
loop-condition checks left (retry_count plus fuel equals max_retries),
`attempts` counts iterations entered; `env` yields the gateway snapshot
fetched by iteration number.  Gateway calls per path: an insufficient-
balance abort makes 2 fetch_balance calls; every path past it adds
fetch_order_book (3 calls so far); a live order adds
create_limit_buy_order and fetch_order (5), plus cancel_order when not
filled (6).  On a live fill the source saves the state file with
monday_attempt_successful true; the in-function assignment to
monday_attempt_successful has no `global` declaration and so rebinds a
function-local name, which this model does not track as process state. -/
def btc_loop (cfg : TradingConfig) (dryRun : Bool) (env : ℕ → GatewaySnapshot) :
    ℕ → ℕ → ℕ → ℕ → ℕ → RunResult
  | 0, rc, attempts, orders, calls =>
      ⟨Outcome.failedMaxRetries, attempts, rc, orders, calls, false⟩
  | fuel + 1, rc, attempts, orders, calls =>
    match btc_attempt cfg dryRun (env attempts) with
    | AttemptStep.abortInsufficientBalance =>
        ⟨Outcome.abortedInsufficientBalance, attempts + 1, rc, orders, calls + 2, false⟩
    | AttemptStep.abortNoBids =>
        ⟨Outcome.abortedNoBids, attempts + 1, rc, orders, calls + 3, false⟩
    | AttemptStep.abortBelowMin _ =>
        ⟨Outcome.abortedBelowMin, attempts + 1, rc, orders, calls + 3, false⟩
    | AttemptStep.simFilled _ _ =>
        ⟨Outcome.success, attempts + 1, rc, orders, calls + 3, false⟩
    | AttemptStep.simNotFilled =>
        btc_loop cfg dryRun env fuel (rc + 1) (attempts + 1) orders (calls + 3)
    | AttemptStep.liveFilled _ _ =>
        ⟨Outcome.success, attempts + 1, rc, orders + 1, calls + 5, true⟩
    | AttemptStep.liveNotFilled =>
        btc_loop cfg dryRun env fuel (rc + 1) (attempts + 1) (orders + 1) (calls + 6)

/-- place_limit_order_btc from bot.py: run the retry loop starting with
retry_count 0 and fuel max_retries. -/
def place_limit_order_btc (cfg : TradingConfig) (dryRun : Bool)
    (env : ℕ → GatewaySnapshot) : RunResult :=
  btc_loop cfg dryRun env cfg.max_retries 0 0 0 0

/-- The minimum SOL amount hard-coded in place_limit_order_sol (0.02). -/
def sol_min_amount : ℚ := 2 / 100

/-- One iteration of the place_limit_order_sol loop body (bot.py lines
270-356); identical in shape to the BTC version with the hard-coded SOL
minimum.  The dry-run branch again reads current_price and bid_price
from the same snapshot field. -/
def sol_attempt (cfg : TradingConfig) (dryRun : Bool) (s : GatewaySnapshot) :
    AttemptStep :=
  match get_available_balance true s with
  | none => AttemptStep.abortInsufficientBalance
  | some (_, available_balance) =>
    match s.bids with
    | [] => AttemptStep.abortNoBids
    | b0 :: _ =>
      let bid_price := b0.1
      let amount_to_use := available_balance * cfg.balance_percentage
      let sol_amount := amount_to_use / bid_price
      if sol_amount < sol_min_amount then AttemptStep.abortBelowMin sol_amount
      else if dryRun then
        let current_price := b0.1
        if current_price ≤ bid_price then AttemptStep.simFilled sol_amount bid_price
        else AttemptStep.simNotFilled
      else if s.orderFilled then AttemptStep.liveFilled sol_amount bid_price
      else AttemptStep.liveNotFilled

/-- The while loop of place_limit_order_sol.  The SOL executor never
saves the weekly state flag, so savedMondayTrue is always false. -/
def sol_loop (cfg : TradingConfig) (dryRun : Bool) (env : ℕ → GatewaySnapshot) :
    ℕ → ℕ → ℕ → ℕ → ℕ → RunResult
  | 0, rc, attempts, orders, calls =>
      ⟨Outcome.failedMaxRetries, attempts, rc, orders, calls, false⟩
  | fuel + 1, rc, attempts, orders, calls =>
    match sol_attempt cfg dryRun (env attempts) with
    | AttemptStep.abortInsufficientBalance =>
        ⟨Outcome.abortedInsufficientBalance, attempts + 1, rc, orders, calls + 2, false⟩
    | AttemptStep.abortNoBids =>
        ⟨Outcome.abortedNoBids, attempts + 1, rc, orders, calls + 3, false⟩
    | AttemptStep.abortBelowMin _ =>
        ⟨Outcome.abortedBelowMin, attempts + 1, rc, orders, calls + 3, false⟩
    | AttemptStep.simFilled _ _ =>
        ⟨Outcome.success, attempts + 1, rc, orders, calls + 3, false⟩
    | AttemptStep.simNotFilled =>
        sol_loop cfg dryRun env fuel (rc + 1) (attempts + 1) orders (calls + 3)
    | AttemptStep.liveFilled _ _ =>
        ⟨Outcome.success, attempts + 1, rc, orders + 1, calls + 5, false⟩
    | AttemptStep.liveNotFilled =>
        sol_loop cfg dryRun env fuel (rc + 1) (attempts + 1) (orders + 1) (calls + 6)

/-- place_limit_order_sol from bot.py. -/
def place_limit_order_sol (cfg : TradingConfig) (dryRun : Bool)
    (env : ℕ → GatewaySnapshot) : RunResult :=
  sol_loop cfg dryRun env cfg.max_retries 0 0 0 0

/-- Process-level weekly cycle state of bot.py:
the module global monday_attempt_successful, and the
monday_attempt_successful flag stored in bot_state.json. -/
structure BotProcState where
  monday_attempt_successful : Bool
  stored_monday_flag : Bool
deriving DecidableEq

/-- place_monday_order from bot.py: reset the global flag and the stored
flag to false, then run place_limit_order_btc.  The executor's line 207
assignment monday_attempt_successful = True carries no `global`
declaration, so it rebinds a function-local name and the module global
stays false; only save_state writes the stored flag. -/
def place_monday_order (cfg : TradingConfig) (dryRun : Bool)
    (env : ℕ → GatewaySnapshot) (_st : BotProcState) : BotProcState × RunResult :=
  let r := place_limit_order_btc cfg dryRun env
  (⟨false, if r.savedMondayTrue then true else false⟩, r)

/-- Result of one place_sunday_order invocation: the resulting process
state, the log lines emitted directly by place_sunday_order itself (the
executor's own log lines are not listed here), the exchange gateway
calls made, and the executor run if one happened. -/
structure SundayResult where
  state : BotProcState
  logs : List String
  gatewayCalls : ℕ
  run : Option RunResult
deriving DecidableEq

/-- place_sunday_order from bot.py: when the in-process global
monday_attempt_successful is false, log and run place_limit_order_btc
(whose live fill writes only the stored flag, not the global); otherwise
log the single skip line and do nothing. -/
def place_sunday_order (cfg : TradingConfig) (dryRun : Bool)
    (env : ℕ → GatewaySnapshot) (st : BotProcState) : SundayResult :=
  if st.monday_attempt_successful = false then
    let r := place_limit_order_btc cfg dryRun env
    ⟨⟨st.monday_attempt_successful,
      if r.savedMondayTrue then true else st.stored_monday_flag⟩,
     ["Monday attempt was not successful, running fallback attempt on Sunday"],
     r.gatewayCalls, some r⟩
  else
    ⟨st, ["Monday attempt was successful, skipping Sunday fallback"], 0, none⟩

/-- One staged buy confirmation, the value stored in the
pending_buy_confirmation dict of notifications.py (line 29):
(timestamp, command_type, amount, currency, is_percentage). -/
structure PendingEntry where
  ts : ℚ
  commandType : String
  amount : ℚ
  currency : Option Currency
  isPercentage : Bool
deriving DecidableEq

/-- The pending-confirmation table, a Python dict keyed by chat id. -/
abbrev PendingTable := List (String × PendingEntry)

/-- Dict lookup: the value of the first (and, for tables built by
dictSet, only) binding of the key. -/
def dictGet (d : PendingTable) (k : String) : Option PendingEntry :=
  (d.find? (fun p => p.1 == k)).map Prod.snd

/-- Dict assignment d[k] = v: replace the binding in place when the key
is present, append otherwise (Python dict update semantics). -/
def dictSet : PendingTable → String → PendingEntry → PendingTable
  | [], k, v => [(k, v)]
  | (k1, v1) :: rest, k, v =>
    if k1 == k then (k, v) :: rest else (k1, v1) :: dictSet rest k v

/-- Dict removal d.pop(k, None): drop the bindings of the key. -/
def dictPop (d : PendingTable) (k : String) : PendingTable :=
  d.filter (fun p => p.1 != k)

/-- Number of bindings a table holds for one key. -/
def countKey (d : PendingTable) (k : String) : ℕ :=
  (d.filter (fun p => p.1 == k)).length

/-- The NotificationManager state the command handlers read and write:
whether the Telegram bot finished its initialization routine, whether
its updater object exists and is running (modelled as one flag), the
rate-limit timestamp, and the pending-confirmation table. -/
structure NMState where
  initialized : Bool
  updaterRunning : Bool
  last_command_time : ℚ
  pending_buy_confirmation : PendingTable
deriving DecidableEq

/-- The per-process command cooldown of notifications.py (2 seconds). -/
def command_cooldown : ℚ := 2

/-- check_command_cooldown from notifications.py: reject when less than
command_cooldown has elapsed since the last command, otherwise record
the current time and allow. -/
def check_command_cooldown (now : ℚ) (st : NMState) : Bool × NMState :=
  if now - st.last_command_time < command_cooldown then (false, st)
  else (true, { st with last_command_time := now })

/-- Numeric value of a decimal digit character. -/
def digitVal (c : Char) : ℕ := c.toNat - 48

/-- Value of a digit string read as a base-10 natural number. -/
def natOfDigits (l : List Char) : ℕ :=
  l.foldl (fun acc c => acc * 10 + digitVal c) 0

/-- Python float(s) restricted to the plain decimal literals the bot's
numeric arguments use: digits with at most one decimal point (sign and
exponent forms are not modelled; a signed literal is nonpositive or
fails, and either way parse_buy_command below rejects it, so the
handler-level behaviour is unchanged). -/
def parseDecimal (s : String) : Option ℚ :=
  match s.toList.splitOn '.' with
  | [intPart] =>
      if intPart.isEmpty ∨ ¬ intPart.all Char.isDigit then none
      else some ((natOfDigits intPart : ℕ) : ℚ)
  | [intPart, fracPart] =>
      if (intPart.isEmpty ∧ fracPart.isEmpty) ∨ ¬ intPart.all Char.isDigit
          ∨ ¬ fracPart.all Char.isDigit then none
      else some (((natOfDigits intPart : ℕ) : ℚ)
        + ((natOfDigits fracPart : ℕ) : ℚ) / (10 : ℚ) ^ fracPart.length)
  | _ => none

/-- Python str.isspace characters relevant to command tokens. -/
def isSpaceChar (c : Char) : Bool :=
  c = ' ' ∨ c = Char.ofNat 9 ∨ c = Char.ofNat 10 ∨ c = Char.ofNat 13

/-- Python str.strip(): drop leading and trailing whitespace. -/
def pyStrip (s : String) : String :=
  ⟨((s.toList.dropWhile isSpaceChar).reverse.dropWhile isSpaceChar).reverse⟩

/-- Python s.endswith of a percent sign. -/
def pyEndsWithPercent (s : String) : Bool :=
  s.toList.getLast? == some (Char.ofNat 37)

/-- Python s[:-1]: drop the last character. -/
def pyDropLast (s : String) : String :=
  ⟨s.toList.dropLast⟩

/-- Python str.upper() on the ASCII command tokens. -/
def pyUpper (s : String) : String :=
  ⟨s.toList.map Char.toUpper⟩

/-- Currency token acceptance in parse_buy_command: strip, uppercase,
and require EUR or USDC. -/
def parseCurrencyToken (s : String) : Option Currency :=
  let u := pyUpper (pyStrip s)
  if u = "EUR" then some Currency.EUR
  else if u = "USDC" then some Currency.USDC
  else none

/-- The private buy-argument parser of notifications.py (lines 392-422,
named with a leading underscore in the source): first token is the
amount, a trailing percent sign marks a percentage, the amount must be
positive; an optional second token picks the currency from EUR or USDC;
anything else fails. -/
def parse_buy_command (args : List String) : Option (ℚ × Option Currency × Bool) :=
  match args with
  | [] => none
  | a0 :: rest =>
    let t := pyStrip a0
    let stripped := if pyEndsWithPercent t then (pyDropLast t, true) else (t, false)
    match parseDecimal stripped.1 with
    | none => none
    | some amount =>
      if amount ≤ 0 then none
      else
        match rest with
        | [] => some (amount, none, stripped.2)
        | c :: _ =>
          match parseCurrencyToken c with
          | none => none
          | some cur => some (amount, some cur, stripped.2)

/-- Reply classes of the staging command handlers. -/
inductive CmdReply
  | cooldownRejected
  | notReadyRejected
  | unauthorizedRejected
  | invalidFormatRejected
  | usdcEurOnlyRejected
  | confirmPrompt
deriving DecidableEq

/-- handle_buy_command from notifications.py (lines 424-474): cooldown
check, readiness check, authorization check against the configured chat
id, argument parse, then stage the pending confirmation under the chat
id with command type buy and send the confirmation prompt. -/
def handle_buy_command (allowedChatId : String) (now : ℚ) (chatId : String)
    (args : List String) (st : NMState) : NMState × CmdReply :=
  match check_command_cooldown now st with
  | (false, st1) => (st1, CmdReply.cooldownRejected)
  | (true, st1) =>
    if ¬ (st1.initialized = true ∧ st1.updaterRunning = true) then
      (st1, CmdReply.notReadyRejected)
    else if chatId ≠ allowedChatId then (st1, CmdReply.unauthorizedRejected)
    else
      match parse_buy_command args with
      | none => (st1, CmdReply.invalidFormatRejected)
      | some (amount, currency, isPct) =>
        ({ st1 with pending_buy_confirmation :=
            (dictSet st1.pending_buy_confirmation chatId
              ⟨now, "buy", amount, currency, isPct⟩) },
         CmdReply.confirmPrompt)

/-- handle_buy_sol_command from notifications.py (lines 476-524), the
SOL copy of the staging handler. -/
def handle_buy_sol_command (allowedChatId : String) (now : ℚ) (chatId : String)
    (args : List String) (st : NMState) : NMState × CmdReply :=
  match check_command_cooldown now st with
  | (false, st1) => (st1, CmdReply.cooldownRejected)
  | (true, st1) =>
    if ¬ (st1.initialized = true ∧ st1.updaterRunning = true) then
      (st1, CmdReply.notReadyRejected)
    else if chatId ≠ allowedChatId then (st1, CmdReply.unauthorizedRejected)
    else
      match parse_buy_command args with
      | none => (st1, CmdReply.invalidFormatRejected)
      | some (amount, currency, isPct) =>
        ({ st1 with pending_buy_confirmation :=
            (dictSet st1.pending_buy_confirmation chatId
              ⟨now, "buysol", amount, currency, isPct⟩) },
         CmdReply.confirmPrompt)

/-- handle_buy_eth_command from notifications.py (lines 526-574), the
ETH copy of the staging handler. -/
def handle_buy_eth_command (allowedChatId : String) (now : ℚ) (chatId : String)
    (args : List String) (st : NMState) : NMState × CmdReply :=
  match check_command_cooldown now st with
  | (false, st1) => (st1, CmdReply.cooldownRejected)
  | (true, st1) =>
    if ¬ (st1.initialized = true ∧ st1.updaterRunning = true) then
      (st1, CmdReply.notReadyRejected)
    else if chatId ≠ allowedChatId then (st1, CmdReply.unauthorizedRejected)
    else
      match parse_buy_command args with
      | none => (st1, CmdReply.invalidFormatRejected)
      | some (amount, currency, isPct) =>
        ({ st1 with pending_buy_confirmation :=
            (dictSet st1.pending_buy_confirmation chatId
              ⟨now, "buyeth", amount, currency, isPct⟩) },
         CmdReply.confirmPrompt)

/-- handle_buy_usdc_command from notifications.py (lines 576-627): the
USDC staging handler additionally rejects an explicit non-EUR currency
and stages the entry with currency EUR. -/
def handle_buy_usdc_command (allowedChatId : String) (now : ℚ) (chatId : String)
    (args : List String) (st : NMState) : NMState × CmdReply :=
  match check_command_cooldown now st with
  | (false, st1) => (st1, CmdReply.cooldownRejected)
  | (true, st1) =>
    if ¬ (st1.initialized = true ∧ st1.updaterRunning = true) then
      (st1, CmdReply.notReadyRejected)
    else if chatId ≠ allowedChatId then (st1, CmdReply.unauthorizedRejected)
    else
      match parse_buy_command args with
      | none => (st1, CmdReply.invalidFormatRejected)
      | some (amount, currency, isPct) =>
        if currency.any (fun c => c ≠ Currency.EUR) then
          (st1, CmdReply.usdcEurOnlyRejected)
        else
          ({ st1 with pending_buy_confirmation :=
              (dictSet st1.pending_buy_confirmation chatId
                ⟨now, "buyusdc", amount, some Currency.EUR, isPct⟩) },
           CmdReply.confirmPrompt)

/-- What notifications.py knows about one registered buy callback:
only that it is set and how many positional parameters the registered
coroutine function declares. -/
structure RegisteredCallback where
  paramCount : ℕ
deriving DecidableEq

/-- The four buy-callback slots of NotificationManager. -/
structure BuyCallbacks where
  buy : Option RegisteredCallback
  buysol : Option RegisteredCallback
  buyeth : Option RegisteredCallback
  buyusdc : Option RegisteredCallback
deriving DecidableEq

/-- The wiring performed by bot.py at startup (lines 578-584): the four
slots hold place_limit_order_btc, place_limit_order_sol,
place_limit_order_eth and place_limit_order_usdc, each of which is
declared with zero parameters in bot.py. -/
def wiredBuyCallbacks : BuyCallbacks :=
  ⟨some ⟨0⟩, some ⟨0⟩, some ⟨0⟩, some ⟨0⟩⟩

/-- Callback selection in handle_confirm_command (lines 646-653):
buysol, buyeth and buyusdc pick their slots, anything else falls back
to the BTC slot. -/
def callbackFor (cbs : BuyCallbacks) (commandType : String) :
    Option RegisteredCallback :=
  if commandType = "buysol" then cbs.buysol
  else if commandType = "buyeth" then cbs.buyeth
  else if commandType = "buyusdc" then cbs.buyusdc
  else cbs.buy

/-- The reply messages handle_confirm_command can send, in order. -/
inductive ConfirmMsg
  | noPendingMsg
  | timedOutMsg
  | notReadyMsg
  | confirmedInitiating
  | initiated
  | errorExecuting
deriving DecidableEq

/-- Result of one handle_confirm_command invocation: the new manager
state, the replies sent in order, and how many buy coroutines were
handed to the event loop. -/
structure ConfirmOutcome where
  state : NMState
  msgs : List ConfirmMsg
  dispatchCount : ℕ
deriving DecidableEq

/-- handle_confirm_command from notifications.py (lines 629-671).  It
performs NO cooldown check and NO authorization check: it looks the chat
id up in the pending table directly.  A missing entry is rejected; an
entry older than 30 seconds is rejected and popped; otherwise the entry
is popped, the callback for its command type is selected, and the
source evaluates callback(amount, currency, is_percentage) — a call
with three positional arguments.  When the registered callback does not
declare three parameters that call raises TypeError, the surrounding
try/except replies with the error message, and nothing reaches the
event loop. -/
def handle_confirm_command (cbs : BuyCallbacks) (now : ℚ) (chatId : String)
    (st : NMState) : ConfirmOutcome :=
  match dictGet st.pending_buy_confirmation chatId with
  | none => ⟨st, [ConfirmMsg.noPendingMsg], 0⟩
  | some e =>
    if 30 < now - e.ts then
      ⟨{ st with pending_buy_confirmation :=
          (dictPop st.pending_buy_confirmation chatId) },
       [ConfirmMsg.timedOutMsg], 0⟩
    else
      let st1 := { st with pending_buy_confirmation :=
          (dictPop st.pending_buy_confirmation chatId) }
      match callbackFor cbs e.commandType with
      | none => ⟨st1, [ConfirmMsg.notReadyMsg], 0⟩
      | some cb =>
        if cb.paramCount = 3 then
          ⟨st1, [ConfirmMsg.confirmedInitiating, ConfirmMsg.initiated], 1⟩
        else
          ⟨st1, [ConfirmMsg.confirmedInitiating, ConfirmMsg.errorExecuting], 0⟩

/-- All keys of the pending-confirmation table equal the allow-listed
chat id (the state class the staging handlers can actually produce). -/
def pendingOnlyAllowed (allowed : String) (st : NMState) : Prop :=
  ∀ p ∈ st.pending_buy_confirmation, p.1 = allowed

/-- A gateway environment with 100 EUR available, a single bid level at
price 50000, and live orders that fill. -/
def liveFillEnv : ℕ → GatewaySnapshot := fun _ => ⟨100, 0, 0, [(50000, 1)], true⟩

/-- The same gateway environment with unfilled live orders (the flag is
unread in dry runs). -/
def dryRunEnv : ℕ → GatewaySnapshot := fun _ => ⟨100, 0, 0, [(50000, 1)], false⟩

/-- A ready NotificationManager with an empty pending table. -/
def readyState : NMState := ⟨true, true, 0, []⟩

/-- A ready manager whose pending table holds a buy entry for the
allow-listed chat 123 staged at time 10 (exactly the table
handle_buy_command produces from readyState). -/
def stagedBuyState : NMState :=
  ⟨true, true, 10, [("123", ⟨10, "buy", 100, none, false⟩)]⟩

/-- A ready manager whose pending table holds a buy entry for chat 123
staged at time 0, used to exercise the expiry branch. -/
def expiredPendingState : NMState :=
  ⟨true, true, 0, [("123", ⟨0, "buy", 100, none, false⟩)]⟩

/-- A manager state whose pending table holds an entry for chat 999,
used to probe handle_confirm_command in isolation. -/
def foreignPendingState : NMState :=
  ⟨true, true, 0, [("999", ⟨0, "buy", 100, none, false⟩)]⟩

theorem dictGet_dictPop (d : PendingTable) (k : String) :
    dictGet (dictPop d k) k = none := by
  have hfind : (dictPop d k).find? (fun p => p.1 == k) = none := by
    rw [List.find?_eq_none]
    intro p hp
    have hmem := List.of_mem_filter hp
    simp only [bne_iff_ne, ne_eq, decide_eq_true_eq] at hmem
    simp [hmem]
  simp [dictGet, hfind]

theorem mem_dictPop {d : PendingTable} {k : String} {p : String × PendingEntry}
    (h : p ∈ dictPop d k) : p ∈ d :=
  List.mem_of_mem_filter h

theorem mem_dictSet {d : PendingTable} {k : String} {v : PendingEntry}
    {p : String × PendingEntry} (h : p ∈ dictSet d k v) :
    p = (k, v) ∨ p ∈ d := by
  induction d with
  | nil => simpa [dictSet] using h
  | cons q rest ih =>
    simp only [dictSet] at h
    by_cases hq : q.1 == k
    · rw [if_pos hq] at h
      rcases List.mem_cons.mp h with h1 | h1
      · exact Or.inl h1
      · exact Or.inr (List.mem_cons_of_mem _ h1)
    · rw [if_neg hq] at h
      rcases List.mem_cons.mp h with h1 | h1
      · exact Or.inr (h1 ▸ List.mem_cons_self _ _)
      · rcases ih h1 with h2 | h2
        · exact Or.inl h2
        · exact Or.inr (List.mem_cons_of_mem _ h2)

theorem dictGet_dictSet_self (d : PendingTable) (k : String) (v : PendingEntry) :
    dictGet (dictSet d k v) k = some v := by
  induction d with
  | nil => simp [dictSet, dictGet, List.find?]
  | cons q rest ih =>
    simp only [dictSet]
    by_cases hq : q.1 == k
    · rw [if_pos hq]
      simp [dictGet, List.find?]
    · rw [if_neg hq]
      simpa [dictGet, List.find?, hq] using ih

theorem dictGet_dictSet_ne (d : PendingTable) (k k1 : String) (v : PendingEntry)
    (h : k1 ≠ k) : dictGet (dictSet d k v) k1 = dictGet d k1 := by
  have hk : (k == k1) = false := beq_eq_false_iff_ne.mpr (Ne.symm h)
  induction d with
  | nil => simp [dictSet, dictGet, List.find?, hk]
  | cons q rest ih =>
    simp only [dictSet]
    by_cases hq : q.1 == k
    · rw [if_pos hq]
      have hqk : q.1 = k := by simpa using hq
      simp [dictGet, List.find?, hqk, hk]
    · rw [if_neg hq]
      by_cases hq1 : q.1 == k1
      · simp [dictGet, List.find?, hq1]
      · simpa [dictGet, List.find?, hq1] using ih

theorem countKey_dictSet (d : PendingTable) (k : String) (v : PendingEntry) :
    countKey (dictSet d k v) k = max (countKey d k) 1 := by
  induction d with
  | nil => simp [dictSet, countKey]
  | cons q rest ih =>
    simp only [dictSet]
    by_cases hq : q.1 == k
    · rw [if_pos hq]
      simp only [countKey, List.filter_cons, hq, beq_self_eq_true, if_pos]
      simp
    · rw [if_neg hq]
      simp only [countKey, List.filter_cons, hq] at ih ⊢
      simpa using ih

theorem dictGet_eq_none_of_keys (d : PendingTable) (k allowed : String)
    (hinv : ∀ p ∈ d, p.1 = allowed) (h : k ≠ allowed) : dictGet d k = none := by
  have hfind : d.find? (fun p => p.1 == k) = none := by
    rw [List.find?_eq_none]
    intro p hp
    simp only [beq_iff_eq]
    intro heq
    exact h (heq ▸ hinv p hp)
  simp [dictGet, hfind]

theorem callbackFor_wired (t : String) :
    callbackFor wiredBuyCallbacks t = some ⟨0⟩ := by
  unfold callbackFor wiredBuyCallbacks
  split
  · rfl
  · split
    · rfl
    · split
      · rfl
      · rfl

/-- C8: whenever the in-process weekly flag is true, the Sunday fallback
job performs zero exchange-gateway calls, emits exactly the one skip log
line, runs no executor and leaves the process trading state unchanged. -/
theorem sunday_skip_when_flag_true (cfg : TradingConfig) (dryRun : Bool)
    (env : ℕ → GatewaySnapshot) (st : BotProcState)
    (h : st.monday_attempt_successful = true) :
    place_sunday_order cfg dryRun env st =
      ⟨st, ["Monday attempt was successful, skipping Sunday fallback"], 0, none⟩ := by
  unfold place_sunday_order
  rw [h]
  simp

/-- Witness for sunday_skip_when_flag_true at a concrete state. -/
theorem sunday_skip_when_flag_true_witness :
    (⟨true, true⟩ : BotProcState).monday_attempt_successful = true ∧
    place_sunday_order defaultTradingConfig true dryRunEnv ⟨true, true⟩ =
      ⟨⟨true, true⟩, ["Monday attempt was successful, skipping Sunday fallback"],
       0, none⟩ :=
  ⟨rfl, sunday_skip_when_flag_true defaultTradingConfig true dryRunEnv ⟨true, true⟩ rfl⟩

/-- C5: a confirmation arriving strictly more than 30 seconds after its
entry was staged is rejected with the timeout message, the pending entry
is removed, and no buy coroutine is dispatched. -/
theorem confirm_after_expiry_rejected (cbs : BuyCallbacks) (now : ℚ)
    (chatId : String) (st : NMState) (e : PendingEntry)
    (hpend : dictGet st.pending_buy_confirmation chatId = some e)
    (hexp : 30 < now - e.ts) :
    handle_confirm_command cbs now chatId st =
      ⟨{ st with pending_buy_confirmation :=
          (dictPop st.pending_buy_confirmation chatId) },
       [ConfirmMsg.timedOutMsg], 0⟩ ∧
    dictGet (dictPop st.pending_buy_confirmation chatId) chatId = none := by
  constructor
  · unfold handle_confirm_command
    rw [hpend]
    simp [hexp]
  · exact dictGet_dictPop _ _

/-- Witness for confirm_after_expiry_rejected: an entry staged at time 0
confirmed at time 31. -/
theorem confirm_after_expiry_rejected_witness :
    dictGet expiredPendingState.pending_buy_confirmation "123" =
      some ⟨0, "buy", 100, none, false⟩ ∧
    (30 : ℚ) < 31 - (0 : ℚ) ∧
    handle_confirm_command wiredBuyCallbacks 31 "123" expiredPendingState =
      ⟨⟨true, true, 0, []⟩, [ConfirmMsg.timedOutMsg], 0⟩ := by
  refine ⟨rfl, by norm_num, ?_⟩
  rw [(confirm_after_expiry_rejected wiredBuyCallbacks 31 "123" expiredPendingState
    ⟨0, "buy", 100, none, false⟩ rfl (by norm_num)).1]
  rfl

/-- C1 (code evaluation): with the callbacks wired by bot.py's
initialization routine — the zero-parameter executors — a confirmation
inside the 30-second window removes the pending entry, but the call
callback(amount, currency, is_percentage) fails on arity (TypeError), so
the reply sequence ends in the error message and no buy coroutine is
ever dispatched. -/
theorem confirm_in_window_removes_but_never_dispatches (now : ℚ)
    (chatId : String) (st : NMState) (e : PendingEntry)
    (hpend : dictGet st.pending_buy_confirmation chatId = some e)
    (hwin : ¬ 30 < now - e.ts) :
    handle_confirm_command wiredBuyCallbacks now chatId st =
      ⟨{ st with pending_buy_confirmation :=
          (dictPop st.pending_buy_confirmation chatId) },
       [ConfirmMsg.confirmedInitiating, ConfirmMsg.errorExecuting], 0⟩ ∧
    dictGet (dictPop st.pending_buy_confirmation chatId) chatId = none := by
  constructor
  · unfold handle_confirm_command
    rw [hpend]
    simp [hwin, callbackFor_wired]
  · exact dictGet_dictPop _ _

/-- Witness for confirm_in_window_removes_but_never_dispatches: a buy
staged at time 10 and confirmed at time 12. -/
theorem confirm_in_window_never_dispatches_witness :
    dictGet stagedBuyState.pending_buy_confirmation "123" =
      some ⟨10, "buy", 100, none, false⟩ ∧
    ¬ (30 : ℚ) < 12 - (10 : ℚ) ∧
    (handle_confirm_command wiredBuyCallbacks 12 "123" stagedBuyState).dispatchCount = 0 ∧
    (handle_confirm_command wiredBuyCallbacks 12 "123" stagedBuyState).msgs =
      [ConfirmMsg.confirmedInitiating, ConfirmMsg.errorExecuting] := by
  refine ⟨rfl, by norm_num, ?_, ?_⟩ <;>
  · rw [(confirm_in_window_removes_but_never_dispatches 12 "123" stagedBuyState
      ⟨10, "buy", 100, none, false⟩ rfl (by norm_num)).1]

/-- C6: a requester other than the allow-listed chat id never stages a
pending confirmation through any of the four risky buy commands: the
pending table is returned unchanged and the reply is one of the
rejection replies, never the confirmation prompt. -/
theorem unauthorized_buy_commands_reject_without_staging (allowed : String)
    (now : ℚ) (chatId : String) (args : List String) (st : NMState)
    (h : chatId ≠ allowed) :
    ((handle_buy_command allowed now chatId args st).1.pending_buy_confirmation =
        st.pending_buy_confirmation ∧
      (handle_buy_command allowed now chatId args st).2 ≠ CmdReply.confirmPrompt) ∧
    ((handle_buy_sol_command allowed now chatId args st).1.pending_buy_confirmation =
        st.pending_buy_confirmation ∧
      (handle_buy_sol_command allowed now chatId args st).2 ≠ CmdReply.confirmPrompt) ∧
    ((handle_buy_eth_command allowed now chatId args st).1.pending_buy_confirmation =
        st.pending_buy_confirmation ∧
      (handle_buy_eth_command allowed now chatId args st).2 ≠ CmdReply.confirmPrompt) ∧
    ((handle_buy_usdc_command allowed now chatId args st).1.pending_buy_confirmation =
        st.pending_buy_confirmation ∧
      (handle_buy_usdc_command allowed now chatId args st).2 ≠ CmdReply.confirmPrompt) := by
  unfold handle_buy_command handle_buy_sol_command handle_buy_eth_command
    handle_buy_usdc_command check_command_cooldown
  by_cases hc : now - st.last_command_time < command_cooldown
  · simp [hc]
  · by_cases hi : st.initialized = true ∧ st.updaterRunning = true
    · simp [hc, hi, h]
    · simp [hc, hi]

/-- Witness for unauthorized_buy_commands_reject_without_staging with a
well-formed command from the wrong chat. -/
theorem unauthorized_buy_commands_witness :
    ("999" : String) ≠ "123" ∧
    (handle_buy_command "123" 100 "999" ["100"] readyState).1.pending_buy_confirmation =
      readyState.pending_buy_confirmation ∧
    (handle_buy_command "123" 100 "999" ["100"] readyState).2 ≠ CmdReply.confirmPrompt :=
  ⟨by decide,
   (unauthorized_buy_commands_reject_without_staging "123" 100 "999" ["100"]
      readyState (by decide)).1.1,
   (unauthorized_buy_commands_reject_without_staging "123" 100 "999" ["100"]
      readyState (by decide)).1.2⟩

theorem handle_buy_command_stages (allowed : String) (now : ℚ) (chatId : String)
    (args : List String) (st : NMState) (a : ℚ) (c : Option Currency) (p : Bool)
    (hcool : ¬ now - st.last_command_time < command_cooldown)
    (h1 : st.initialized = true) (h2 : st.updaterRunning = true)
    (hauth : chatId = allowed)
    (hparse : parse_buy_command args = some (a, c, p)) :
    handle_buy_command allowed now chatId args st =
      ({ st with
          last_command_time := now
          pending_buy_confirmation :=
            (dictSet st.pending_buy_confirmation chatId ⟨now, "buy", a, c, p⟩) },
       CmdReply.confirmPrompt) := by
  subst hauth
  simp [handle_buy_command, check_command_cooldown, if_neg hcool, h1, h2, hparse]

theorem handle_buy_sol_command_stages (allowed : String) (now : ℚ) (chatId : String)
    (args : List String) (st : NMState) (a : ℚ) (c : Option Currency) (p : Bool)
    (hcool : ¬ now - st.last_command_time < command_cooldown)
    (h1 : st.initialized = true) (h2 : st.updaterRunning = true)
    (hauth : chatId = allowed)
    (hparse : parse_buy_command args = some (a, c, p)) :
    handle_buy_sol_command allowed now chatId args st =
      ({ st with
          last_command_time := now
          pending_buy_confirmation :=
            (dictSet st.pending_buy_confirmation chatId ⟨now, "buysol", a, c, p⟩) },
       CmdReply.confirmPrompt) := by
  subst hauth
  simp [handle_buy_sol_command, check_command_cooldown, if_neg hcool, h1, h2, hparse]

theorem handle_buy_eth_command_stages (allowed : String) (now : ℚ) (chatId : String)
    (args : List String) (st : NMState) (a : ℚ) (c : Option Currency) (p : Bool)
    (hcool : ¬ now - st.last_command_time < command_cooldown)
    (h1 : st.initialized = true) (h2 : st.updaterRunning = true)
    (hauth : chatId = allowed)
    (hparse : parse_buy_command args = some (a, c, p)) :
    handle_buy_eth_command allowed now chatId args st =
      ({ st with
          last_command_time := now
          pending_buy_confirmation :=
            (dictSet st.pending_buy_confirmation chatId ⟨now, "buyeth", a, c, p⟩) },
       CmdReply.confirmPrompt) := by
  subst hauth
  simp [handle_buy_eth_command, check_command_cooldown, if_neg hcool, h1, h2, hparse]

theorem handle_buy_usdc_command_stages (allowed : String) (now : ℚ) (chatId : String)
    (args : List String) (st : NMState) (a : ℚ) (c : Option Currency) (p : Bool)
    (hcool : ¬ now - st.last_command_time < command_cooldown)
    (h1 : st.initialized = true) (h2 : st.updaterRunning = true)
    (hauth : chatId = allowed)
    (hparse : parse_buy_command args = some (a, c, p))
    (hc : c = none ∨ c = some Currency.EUR) :
    handle_buy_usdc_command allowed now chatId args st =
      ({ st with
          last_command_time := now
          pending_buy_confirmation :=
            (dictSet st.pending_buy_confirmation chatId
              ⟨now, "buyusdc", a, some Currency.EUR, p⟩) },
       CmdReply.confirmPrompt) := by
  subst hauth
  rcases hc with hc | hc <;>
    simp [handle_buy_usdc_command, check_command_cooldown, if_neg hcool, h1, h2,
      hparse, hc]

/-- C7 counterexample: handle_confirm_command consults no allow-list at
all.  For a chat id 999 different from the configured id 123, with an
entry staged under 999, the confirm command is not rejected for
authorization: it sends the confirmed-initiating reply and mutates the
pending table, so the claim that every command is identity-checked
before any effect is false at this input. -/
theorem confirm_skips_authorization_counterexample :
    ("999" : String) ≠ "123" ∧
    (handle_confirm_command wiredBuyCallbacks 1 "999" foreignPendingState).state.pending_buy_confirmation = [] ∧
    foreignPendingState.pending_buy_confirmation ≠ [] ∧
    (handle_confirm_command wiredBuyCallbacks 1 "999" foreignPendingState).msgs =
      [ConfirmMsg.confirmedInitiating, ConfirmMsg.errorExecuting] := by
  have h := (confirm_in_window_removes_but_never_dispatches 1 "999"
    foreignPendingState ⟨0, "buy", 100, none, false⟩ rfl (by norm_num)).1
  refine ⟨by decide, ?_, by decide, ?_⟩
  · rw [h]
    rfl
  · rw [h]

theorem handle_buy_command_pending (allowed : String) (now : ℚ) (chatId : String)
    (args : List String) (st : NMState) :
    (handle_buy_command allowed now chatId args st).1.pending_buy_confirmation =
      st.pending_buy_confirmation ∨
    ∃ v, chatId = allowed ∧
      (handle_buy_command allowed now chatId args st).1.pending_buy_confirmation =
        dictSet st.pending_buy_confirmation chatId v := by
  unfold handle_buy_command check_command_cooldown
  by_cases hcool : now - st.last_command_time < command_cooldown
  · left
    simp [hcool]
  · by_cases h1 : st.initialized = true ∧ st.updaterRunning = true
    · by_cases hauth : chatId ≠ allowed
      · left
        simp [hcool, h1.1, h1.2, hauth]
      · push_neg at hauth
        cases hparse : parse_buy_command args with
        | none =>
          left
          simp [hcool, h1.1, h1.2, hauth, hparse]
        | some v =>
          obtain ⟨a, c, p⟩ := v
          exact Or.inr ⟨⟨now, "buy", a, c, p⟩, hauth,
            by simp [hcool, h1.1, h1.2, hauth, hparse]⟩
    · left
      simp [hcool, h1]

theorem handle_buy_sol_command_pending (allowed : String) (now : ℚ) (chatId : String)
    (args : List String) (st : NMState) :
    (handle_buy_sol_command allowed now chatId args st).1.pending_buy_confirmation =
      st.pending_buy_confirmation ∨
    ∃ v, chatId = allowed ∧
      (handle_buy_sol_command allowed now chatId args st).1.pending_buy_confirmation =
        dictSet st.pending_buy_confirmation chatId v := by
  unfold handle_buy_sol_command check_command_cooldown
  by_cases hcool : now - st.last_command_time < command_cooldown
  · left
    simp [hcool]
  · by_cases h1 : st.initialized = true ∧ st.updaterRunning = true
    · by_cases hauth : chatId ≠ allowed
      · left
        simp [hcool, h1.1, h1.2, hauth]
      · push_neg at hauth
        cases hparse : parse_buy_command args with
        | none =>
          left
          simp [hcool, h1.1, h1.2, hauth, hparse]
        | some v =>
          obtain ⟨a, c, p⟩ := v
          exact Or.inr ⟨⟨now, "buysol", a, c, p⟩, hauth,
            by simp [hcool, h1.1, h1.2, hauth, hparse]⟩
    · left
      simp [hcool, h1]

theorem handle_buy_eth_command_pending (allowed : String) (now : ℚ) (chatId : String)
    (args : List String) (st : NMState) :
    (handle_buy_eth_command allowed now chatId args st).1.pending_buy_confirmation =
      st.pending_buy_confirmation ∨
    ∃ v, chatId = allowed ∧
      (handle_buy_eth_command allowed now chatId args st).1.pending_buy_confirmation =
        dictSet st.pending_buy_confirmation chatId v := by
  unfold handle_buy_eth_command check_command_cooldown
  by_cases hcool : now - st.last_command_time < command_cooldown
  · left
    simp [hcool]
  · by_cases h1 : st.initialized = true ∧ st.updaterRunning = true
    · by_cases hauth : chatId ≠ allowed
      · left
        simp [hcool, h1.1, h1.2, hauth]
      · push_neg at hauth
        cases hparse : parse_buy_command args with
        | none =>
          left
          simp [hcool, h1.1, h1.2, hauth, hparse]
        | some v =>
          obtain ⟨a, c, p⟩ := v
          exact Or.inr ⟨⟨now, "buyeth", a, c, p⟩, hauth,
            by simp [hcool, h1.1, h1.2, hauth, hparse]⟩
    · left
      simp [hcool, h1]

theorem handle_buy_usdc_command_pending (allowed : String) (now : ℚ) (chatId : String)
    (args : List String) (st : NMState) :
    (handle_buy_usdc_command allowed now chatId args st).1.pending_buy_confirmation =
      st.pending_buy_confirmation ∨
    ∃ v, chatId = allowed ∧
      (handle_buy_usdc_command allowed now chatId args st).1.pending_buy_confirmation =
        dictSet st.pending_buy_confirmation chatId v := by
  unfold handle_buy_usdc_command check_command_cooldown
  by_cases hcool : now - st.last_command_time < command_cooldown
  · left
    simp [hcool]
  · by_cases h1 : st.initialized = true ∧ st.updaterRunning = true
    · by_cases hauth : chatId ≠ allowed
      · left
        simp [hcool, h1.1, h1.2, hauth]
      · push_neg at hauth
        cases hparse : parse_buy_command args with
        | none =>
          left
          simp [hcool, h1.1, h1.2, hauth, hparse]
        | some v =>
          obtain ⟨a, c, p⟩ := v
          rcases c with _ | cur
          · exact Or.inr ⟨⟨now, "buyusdc", a, some Currency.EUR, p⟩, hauth,
              by simp [hcool, h1.1, h1.2, hauth, hparse]⟩
          · cases cur
            · exact Or.inr ⟨⟨now, "buyusdc", a, some Currency.EUR, p⟩, hauth,
                by simp [hcool, h1.1, h1.2, hauth, hparse]⟩
            · left
              simp [hcool, h1.1, h1.2, hauth, hparse]
    · left
      simp [hcool, h1]

theorem handle_confirm_command_pending (cbs : BuyCallbacks) (now : ℚ)
    (chatId : String) (st : NMState) :
    (handle_confirm_command cbs now chatId st).state.pending_buy_confirmation =
      st.pending_buy_confirmation ∨
    (handle_confirm_command cbs now chatId st).state.pending_buy_confirmation =
      dictPop st.pending_buy_confirmation chatId := by
  unfold handle_confirm_command
  cases hp : dictGet st.pending_buy_confirmation chatId with
  | none =>
    left
    simp
  | some e =>
    by_cases ht : 30 < now - e.ts
    · right
      simp [ht]
    · cases hcb : callbackFor cbs e.commandType with
      | none =>
        right
        simp [ht, hcb]
      | some cb =>
        by_cases h3 : cb.paramCount = 3 <;> right <;> simp [ht, hcb, h3]

theorem tableOnlyAllowed_preserved {allowed chatId : String} {st : NMState}
    {tbl : PendingTable} (hinv : pendingOnlyAllowed allowed st)
    (h : tbl = st.pending_buy_confirmation ∨
      ∃ v, chatId = allowed ∧ tbl = dictSet st.pending_buy_confirmation chatId v) :
    ∀ p ∈ tbl, p.1 = allowed := by
  rcases h with h | ⟨v, hc, h⟩ <;> intro p hp
  · exact hinv p (h ▸ hp)
  · rcases mem_dictSet (h ▸ hp) with h1 | h1
    · rw [h1, ← hc]
    · exact hinv p h1

/-- C7 amended: the staging handlers check the requester identity and
stage only under the allow-listed chat id, so they and the confirm
handler preserve the invariant that the pending table is keyed by the
allow-listed id only; the confirm handler itself performs no identity
check, but on any state satisfying that invariant a confirm from any
other identity finds no pending entry and is rejected with no state
change and no dispatch. -/
theorem commands_authorization_invariant (allowed : String) (now : ℚ)
    (chatId : String) (args : List String) (st : NMState)
    (hinv : pendingOnlyAllowed allowed st) :
    pendingOnlyAllowed allowed (handle_buy_command allowed now chatId args st).1 ∧
    pendingOnlyAllowed allowed (handle_buy_sol_command allowed now chatId args st).1 ∧
    pendingOnlyAllowed allowed (handle_buy_eth_command allowed now chatId args st).1 ∧
    pendingOnlyAllowed allowed (handle_buy_usdc_command allowed now chatId args st).1 ∧
    pendingOnlyAllowed allowed
      (handle_confirm_command wiredBuyCallbacks now chatId st).state ∧
    (chatId ≠ allowed →
      handle_confirm_command wiredBuyCallbacks now chatId st =
        ⟨st, [ConfirmMsg.noPendingMsg], 0⟩) := by
  refine ⟨tableOnlyAllowed_preserved hinv (handle_buy_command_pending allowed now chatId args st),
    tableOnlyAllowed_preserved hinv (handle_buy_sol_command_pending allowed now chatId args st),
    tableOnlyAllowed_preserved hinv (handle_buy_eth_command_pending allowed now chatId args st),
    tableOnlyAllowed_preserved hinv (handle_buy_usdc_command_pending allowed now chatId args st),
    ?_, ?_⟩
  · rcases handle_confirm_command_pending wiredBuyCallbacks now chatId st with h | h <;>
      intro p hp
    · exact hinv p (h ▸ hp)
    · exact hinv p (mem_dictPop (h ▸ hp))
  · intro hne
    have hnone := dictGet_eq_none_of_keys st.pending_buy_confirmation chatId allowed
      hinv hne
    simp [handle_confirm_command, hnone]

/-- Witness for commands_authorization_invariant: empty pending table,
confirm from the non-allow-listed chat 999 is rejected untouched. -/
theorem commands_authorization_invariant_witness :
    pendingOnlyAllowed "123" readyState ∧
    handle_confirm_command wiredBuyCallbacks 5 "999" readyState =
      ⟨readyState, [ConfirmMsg.noPendingMsg], 0⟩ :=
  ⟨by intro p hp; simp [readyState] at hp,
   (commands_authorization_invariant "123" 5 "999" [] readyState
      (by intro p hp; simp [readyState] at hp)).2.2.2.2.2 (by decide)⟩

/-- C9 counterexample: the pending dict is keyed by chat id alone, so
staging a SOL buy while a BTC buy confirmation is pending for the same
requester erases the BTC entry even though the two are different command
classes; the claim that a different-class pending confirmation stays
intact is false at this input. -/
theorem staging_overwrites_across_classes_counterexample :
    stagedBuyState.pending_buy_confirmation =
      [("123", ⟨10, "buy", 100, none, false⟩)] ∧
    (handle_buy_sol_command "123" 20 "123" ["50"]
        stagedBuyState).1.pending_buy_confirmation =
      [("123", ⟨20, "buysol", 50, none, false⟩)] ∧
    List.filter (fun p => p.2.commandType == "buy")
      (handle_buy_sol_command "123" 20 "123" ["50"]
        stagedBuyState).1.pending_buy_confirmation = [] := by
  have h := handle_buy_sol_command_stages "123" 20 "123" ["50"] stagedBuyState
    50 none false (by norm_num [stagedBuyState, command_cooldown]) rfl rfl rfl rfl
  refine ⟨rfl, ?_, ?_⟩ <;> rw [h] <;> rfl

/-- C9 amended: the pending-confirmation dict holds at most one entry
per requester overall, not per command class: a successful staging of
any class stores its entry under the requester's chat id, overwriting
whatever entry that requester had regardless of class, while entries of
other requesters are untouched and the requester's key count is one. -/
theorem staging_keyed_by_requester_only (allowed : String) (now : ℚ)
    (chatId : String) (args : List String) (st : NMState) (a : ℚ)
    (c : Option Currency) (p : Bool)
    (hcool : ¬ now - st.last_command_time < command_cooldown)
    (h1 : st.initialized = true) (h2 : st.updaterRunning = true)
    (hauth : chatId = allowed)
    (hparse : parse_buy_command args = some (a, c, p)) :
    (handle_buy_command allowed now chatId args st).1.pending_buy_confirmation =
      dictSet st.pending_buy_confirmation chatId ⟨now, "buy", a, c, p⟩ ∧
    (handle_buy_sol_command allowed now chatId args st).1.pending_buy_confirmation =
      dictSet st.pending_buy_confirmation chatId ⟨now, "buysol", a, c, p⟩ ∧
    (handle_buy_eth_command allowed now chatId args st).1.pending_buy_confirmation =
      dictSet st.pending_buy_confirmation chatId ⟨now, "buyeth", a, c, p⟩ ∧
    (∀ v : PendingEntry,
      dictGet (dictSet st.pending_buy_confirmation chatId v) chatId = some v) ∧
    (∀ (v : PendingEntry) (k : String), k ≠ chatId →
      dictGet (dictSet st.pending_buy_confirmation chatId v) k =
        dictGet st.pending_buy_confirmation k) ∧
    (∀ v : PendingEntry, countKey st.pending_buy_confirmation chatId ≤ 1 →
      countKey (dictSet st.pending_buy_confirmation chatId v) chatId = 1) := by
  refine ⟨?_, ?_, ?_, ?_, ?_, ?_⟩
  · rw [handle_buy_command_stages allowed now chatId args st a c p hcool h1 h2
      hauth hparse]
  · rw [handle_buy_sol_command_stages allowed now chatId args st a c p hcool h1 h2
      hauth hparse]
  · rw [handle_buy_eth_command_stages allowed now chatId args st a c p hcool h1 h2
      hauth hparse]
  · exact fun v => dictGet_dictSet_self _ _ _
  · exact fun v k hk => dictGet_dictSet_ne _ _ _ _ hk
  · intro v hle
    rw [countKey_dictSet]
    rcases Nat.le_one_iff_eq_zero_or_eq_one.mp hle with h | h <;> simp [h]

/-- Witness for staging_keyed_by_requester_only at a concrete state
holding a pending buy entry. -/
theorem staging_keyed_by_requester_only_witness :
    ¬ (20 : ℚ) - stagedBuyState.last_command_time < command_cooldown ∧
    parse_buy_command ["50"] = some (50, none, false) ∧
    (handle_buy_command "123" 20 "123" ["50"]
        stagedBuyState).1.pending_buy_confirmation =
      dictSet stagedBuyState.pending_buy_confirmation "123"
        ⟨20, "buy", 50, none, false⟩ :=
  ⟨by norm_num [stagedBuyState, command_cooldown], rfl,
   (staging_keyed_by_requester_only "123" 20 "123" ["50"] stagedBuyState 50 none
      false (by norm_num [stagedBuyState, command_cooldown]) rfl rfl rfl rfl).1⟩

theorem btc_attempt_belowMin (cfg : TradingConfig) (dryRun : Bool)
    (s : GatewaySnapshot) (cur : Currency) (avail bp bq : ℚ)
    (rest : List (ℚ × ℚ))
    (hbal : get_available_balance true s = some (cur, avail))
    (hbids : s.bids = (bp, bq) :: rest)
    (hq : avail * cfg.balance_percentage / bp < cfg.min_btc_amount) :
    btc_attempt cfg dryRun s =
      AttemptStep.abortBelowMin (avail * cfg.balance_percentage / bp) := by
  simp [btc_attempt, hbal, hbids, hq]

theorem sol_attempt_belowMin (cfg : TradingConfig) (dryRun : Bool)
    (s : GatewaySnapshot) (cur : Currency) (avail bp bq : ℚ)
    (rest : List (ℚ × ℚ))
    (hbal : get_available_balance true s = some (cur, avail))
    (hbids : s.bids = (bp, bq) :: rest)
    (hq : avail * cfg.balance_percentage / bp < sol_min_amount) :
    sol_attempt cfg dryRun s =
      AttemptStep.abortBelowMin (avail * cfg.balance_percentage / bp) := by
  simp [sol_attempt, hbal, hbids, hq]

theorem btc_attempt_dry_filled (cfg : TradingConfig) (s : GatewaySnapshot)
    (cur : Currency) (avail bp bq : ℚ) (rest : List (ℚ × ℚ))
    (hbal : get_available_balance true s = some (cur, avail))
    (hbids : s.bids = (bp, bq) :: rest)
    (hq : ¬ avail * cfg.balance_percentage / bp < cfg.min_btc_amount) :
    btc_attempt cfg true s =
      AttemptStep.simFilled (avail * cfg.balance_percentage / bp) bp := by
  simp [btc_attempt, hbal, hbids, hq]

theorem sol_attempt_dry_filled (cfg : TradingConfig) (s : GatewaySnapshot)
    (cur : Currency) (avail bp bq : ℚ) (rest : List (ℚ × ℚ))
    (hbal : get_available_balance true s = some (cur, avail))
    (hbids : s.bids = (bp, bq) :: rest)
    (hq : ¬ avail * cfg.balance_percentage / bp < sol_min_amount) :
    sol_attempt cfg true s =
      AttemptStep.simFilled (avail * cfg.balance_percentage / bp) bp := by
  simp [sol_attempt, hbal, hbids, hq]

theorem btc_attempt_live_filled (cfg : TradingConfig) (s : GatewaySnapshot)
    (cur : Currency) (avail bp bq : ℚ) (rest : List (ℚ × ℚ))
    (hbal : get_available_balance true s = some (cur, avail))
    (hbids : s.bids = (bp, bq) :: rest)
    (hq : ¬ avail * cfg.balance_percentage / bp < cfg.min_btc_amount)
    (hfill : s.orderFilled = true) :
    btc_attempt cfg false s =
      AttemptStep.liveFilled (avail * cfg.balance_percentage / bp) bp := by
  simp [btc_attempt, hbal, hbids, hq, hfill]

/-- C4: whenever the first attempt's computed quantity (spend divided by
the chosen bid) is below the asset's minimum, the executor aborts at
once: one loop iteration, zero retries consumed, zero
create_limit_buy_order calls, in dry-run and live mode alike (the
minimum check precedes the mode branch); the BTC and SOL executors
behave identically. -/
theorem below_min_quantity_never_places_order (cfg : TradingConfig)
    (dryRun : Bool) (env : ℕ → GatewaySnapshot) (cur : Currency)
    (avail bp bq : ℚ) (rest : List (ℚ × ℚ))
    (hbal : get_available_balance true (env 0) = some (cur, avail))
    (hbids : (env 0).bids = (bp, bq) :: rest)
    (hbtc : avail * cfg.balance_percentage / bp < cfg.min_btc_amount)
    (hsol : avail * cfg.balance_percentage / bp < sol_min_amount)
    (hmr : 0 < cfg.max_retries) :
    place_limit_order_btc cfg dryRun env =
      ⟨Outcome.abortedBelowMin, 1, 0, 0, 3, false⟩ ∧
    place_limit_order_sol cfg dryRun env =
      ⟨Outcome.abortedBelowMin, 1, 0, 0, 3, false⟩ := by
  obtain ⟨n, hn⟩ : ∃ n, cfg.max_retries = n + 1 := ⟨cfg.max_retries - 1, by omega⟩
  constructor
  · have hstep := btc_attempt_belowMin cfg dryRun (env 0) cur avail bp bq rest
      hbal hbids hbtc
    unfold place_limit_order_btc
    rw [hn]
    simp [btc_loop, hstep]
  · have hstep := sol_attempt_belowMin cfg dryRun (env 0) cur avail bp bq rest
      hbal hbids hsol
    unfold place_limit_order_sol
    rw [hn]
    simp [sol_loop, hstep]

/-- An environment whose single bid level is priced so high that the
computed quantity falls below every minimum. -/
def tinyQtyEnv : ℕ → GatewaySnapshot := fun _ => ⟨100, 0, 0, [(50000000, 1)], false⟩

/-- Witness for below_min_quantity_never_places_order: 100 EUR at a bid
price of 50000000 gives a quantity below both minimums. -/
theorem below_min_quantity_never_places_order_witness :
    get_available_balance true (tinyQtyEnv 0) = some (Currency.EUR, 100) ∧
    (100 : ℚ) * defaultTradingConfig.balance_percentage / 50000000 <
      defaultTradingConfig.min_btc_amount ∧
    (100 : ℚ) * defaultTradingConfig.balance_percentage / 50000000 < sol_min_amount ∧
    place_limit_order_btc defaultTradingConfig true tinyQtyEnv =
      ⟨Outcome.abortedBelowMin, 1, 0, 0, 3, false⟩ ∧
    place_limit_order_sol defaultTradingConfig true tinyQtyEnv =
      ⟨Outcome.abortedBelowMin, 1, 0, 0, 3, false⟩ := by
  have h := below_min_quantity_never_places_order defaultTradingConfig true
    tinyQtyEnv Currency.EUR 100 50000000 1 []
    (by norm_num [get_available_balance, tinyQtyEnv])
    rfl
    (by norm_num [defaultTradingConfig])
    (by norm_num [defaultTradingConfig, sol_min_amount])
    (by norm_num [defaultTradingConfig])
  exact ⟨by norm_num [get_available_balance, tinyQtyEnv],
    by norm_num [defaultTradingConfig],
    by norm_num [defaultTradingConfig, sol_min_amount], h.1, h.2⟩

/-- C10: in simulated mode the compared current price and the chosen bid
are the same first component of the same snapshot's first bid level, so
the not-filled retry branch of the price comparison is unreachable, and
every dry run whose first attempt passes the balance, order-book and
minimum-quantity guards succeeds on that first attempt with zero retries
(for the BTC and the SOL executor alike). -/
theorem dry_run_declares_success_first_attempt :
    (∀ (cfg : TradingConfig) (s : GatewaySnapshot),
      btc_attempt cfg true s ≠ AttemptStep.simNotFilled) ∧
    (∀ (cfg : TradingConfig) (s : GatewaySnapshot),
      sol_attempt cfg true s ≠ AttemptStep.simNotFilled) ∧
    (∀ (cfg : TradingConfig) (env : ℕ → GatewaySnapshot) (cur : Currency)
      (avail bp bq : ℚ) (rest : List (ℚ × ℚ)),
      get_available_balance true (env 0) = some (cur, avail) →
      (env 0).bids = (bp, bq) :: rest →
      ¬ avail * cfg.balance_percentage / bp < cfg.min_btc_amount →
      0 < cfg.max_retries →
      place_limit_order_btc cfg true env = ⟨Outcome.success, 1, 0, 0, 3, false⟩) ∧
    (∀ (cfg : TradingConfig) (env : ℕ → GatewaySnapshot) (cur : Currency)
      (avail bp bq : ℚ) (rest : List (ℚ × ℚ)),
      get_available_balance true (env 0) = some (cur, avail) →
      (env 0).bids = (bp, bq) :: rest →
      ¬ avail * cfg.balance_percentage / bp < sol_min_amount →
      0 < cfg.max_retries →
      place_limit_order_sol cfg true env = ⟨Outcome.success, 1, 0, 0, 3, false⟩) := by
  refine ⟨?_, ?_, ?_, ?_⟩
  · intro cfg s
    unfold btc_attempt
    rcases hg : get_available_balance true s with _ | ⟨c, avail⟩
    · simp
    · rcases hb : s.bids with _ | ⟨b0, rest⟩
      · simp
      · by_cases hq : avail * cfg.balance_percentage / b0.1 < cfg.min_btc_amount <;>
          simp [hq]
  · intro cfg s
    unfold sol_attempt
    rcases hg : get_available_balance true s with _ | ⟨c, avail⟩
    · simp
    · rcases hb : s.bids with _ | ⟨b0, rest⟩
      · simp
      · by_cases hq : avail * cfg.balance_percentage / b0.1 < sol_min_amount <;>
          simp [hq]
  · intro cfg env cur avail bp bq rest hbal hbids hq hmr
    obtain ⟨n, hn⟩ : ∃ n, cfg.max_retries = n + 1 := ⟨cfg.max_retries - 1, by omega⟩
    have hstep := btc_attempt_dry_filled cfg (env 0) cur avail bp bq rest
      hbal hbids hq
    unfold place_limit_order_btc
    rw [hn]
    simp [btc_loop, hstep]
  · intro cfg env cur avail bp bq rest hbal hbids hq hmr
    obtain ⟨n, hn⟩ : ∃ n, cfg.max_retries = n + 1 := ⟨cfg.max_retries - 1, by omega⟩
    have hstep := sol_attempt_dry_filled cfg (env 0) cur avail bp bq rest
      hbal hbids hq
    unfold place_limit_order_sol
    rw [hn]
    simp [sol_loop, hstep]

/-- An environment with a bid level cheap enough for the SOL minimum. -/
def solFriendlyEnv : ℕ → GatewaySnapshot := fun _ => ⟨100, 0, 0, [(100, 1)], false⟩

/-- Witness for dry_run_declares_success_first_attempt on concrete
guarded dry runs of both executors. -/
theorem dry_run_declares_success_first_attempt_witness :
    place_limit_order_btc defaultTradingConfig true dryRunEnv =
      ⟨Outcome.success, 1, 0, 0, 3, false⟩ ∧
    place_limit_order_sol defaultTradingConfig true solFriendlyEnv =
      ⟨Outcome.success, 1, 0, 0, 3, false⟩ :=
  ⟨dry_run_declares_success_first_attempt.2.2.1 defaultTradingConfig dryRunEnv
      Currency.EUR 100 50000 1 []
      (by norm_num [get_available_balance, dryRunEnv]) rfl
      (by norm_num [defaultTradingConfig]) (by norm_num [defaultTradingConfig]),
   dry_run_declares_success_first_attempt.2.2.2 defaultTradingConfig solFriendlyEnv
      Currency.EUR 100 100 1 []
      (by norm_num [get_available_balance, solFriendlyEnv]) rfl
      (by norm_num [defaultTradingConfig, sol_min_amount])
      (by norm_num [defaultTradingConfig])⟩

/-- C3 (code evaluation at the failing input): in a dry run where the
best bid never rises above the chosen bid (they are read from the same
snapshot and are equal), the executor does not consume max_retries
attempts and report failure: it reports simulated success on the first
attempt, with max_retries equal to 10. -/
theorem flat_price_dry_run_succeeds_immediately :
    btc_attempt defaultTradingConfig true (dryRunEnv 0) =
      AttemptStep.simFilled (1 / 2500) 50000 ∧
    place_limit_order_btc defaultTradingConfig true dryRunEnv =
      ⟨Outcome.success, 1, 0, 0, 3, false⟩ ∧
    defaultTradingConfig.max_retries = 10 ∧
    (⟨Outcome.success, 1, 0, 0, 3, false⟩ : RunResult).outcome ≠
      Outcome.failedMaxRetries := by
  have hstep := btc_attempt_dry_filled defaultTradingConfig (dryRunEnv 0)
    Currency.EUR 100 50000 1 []
    (by norm_num [get_available_balance, dryRunEnv]) rfl
    (by norm_num [defaultTradingConfig])
  have hqty : (100 : ℚ) * defaultTradingConfig.balance_percentage / 50000 = 1 / 2500 := by
    norm_num [defaultTradingConfig]
  refine ⟨?_, ?_, rfl, by decide⟩
  · rw [hstep, hqty]
  · unfold place_limit_order_btc
    rw [show defaultTradingConfig.max_retries = 9 + 1 from rfl]
    simp [btc_loop, hstep]

/-- C2 (code evaluation at the failing input): a live Monday run whose
first attempt fills reports success and writes the stored flag, but the
module global stays false (the executor's assignment is function-local),
so the Sunday job in the same process still runs the executor and makes
gateway calls instead of skipping. -/
theorem monday_fill_leaves_global_flag_false :
    (place_monday_order defaultTradingConfig false liveFillEnv ⟨false, false⟩).2 =
      ⟨Outcome.success, 1, 0, 1, 5, true⟩ ∧
    (place_monday_order defaultTradingConfig false liveFillEnv ⟨false, false⟩).1 =
      ⟨false, true⟩ ∧
    (place_sunday_order defaultTradingConfig false liveFillEnv ⟨false, true⟩).run ≠
      none ∧
    (place_sunday_order defaultTradingConfig false liveFillEnv
      ⟨false, true⟩).gatewayCalls = 5 ∧
    (place_sunday_order defaultTradingConfig false liveFillEnv ⟨false, true⟩).logs =
      ["Monday attempt was not successful, running fallback attempt on Sunday"] := by
  have hstep := btc_attempt_live_filled defaultTradingConfig (liveFillEnv 0)
    Currency.EUR 100 50000 1 []
    (by norm_num [get_available_balance, liveFillEnv]) rfl
    (by norm_num [defaultTradingConfig]) rfl
  have hrun : place_limit_order_btc defaultTradingConfig false liveFillEnv =
      ⟨Outcome.success, 1, 0, 1, 5, true⟩ := by
    unfold place_limit_order_btc
    rw [show defaultTradingConfig.max_retries = 9 + 1 from rfl]
    simp [btc_loop, hstep]
  refine ⟨?_, ?_, ?_, ?_, ?_⟩ <;> simp [place_monday_order, place_sunday_order, hrun]

end KrakenBuyBot
